import Mathlib

/-
Verification of the middleware layer of django-facebook
(src/django_facebook/middleware.py), as a shallow embedding in Lean 4.

Python dictionaries that the middleware reads and writes (request.POST,
request.COOKIES, the session store) are embedded as association lists of
strings; dotted attribute access that can fail (request.user on a request
the authentication middleware never touched) is embedded as an Option, and
each process_request returns Except so that the raised exception kind
(ImproperlyConfigured vs. AttributeError) is observable.
-/

namespace DjangoFacebook

/-- Lookup in a string-keyed dictionary, first binding wins; none when the
key is absent (Python dict.get). -/
def dictGet : List (String × String) → String → Option String
  | [], _ => none
  | (k0, v0) :: rest, k => if k0 = k then some v0 else dictGet rest k

/-- Write a key in a string-keyed dictionary, overwriting the first existing
binding of that key, appending when absent (Python dict item assignment). -/
def dictSet : List (String × String) → String → String → List (String × String)
  | [], k, v => [(k, v)]
  | (k0, v0) :: rest, k, v =>
      if k0 = k then (k0, v) :: rest else (k0, v0) :: dictSet rest k v

/-- A concrete (non-anonymous) framework user; only the username field is
read by this code. -/
structure User where
  username : String
deriving DecidableEq, Repr

/-- The value of request.user when present: the anonymous user or a concrete
user, as in the authentication framework. -/
inductive UserRef where
  | anonymous : UserRef
  | user : User → UserRef
deriving DecidableEq, Repr

/-- Framework method user.is_anonymous(). -/
def UserRef.is_anonymous : UserRef → Bool
  | .anonymous => true
  | .user _ => false

/-- Framework method user.is_authenticated(): negation of is_anonymous. -/
def UserRef.is_authenticated (u : UserRef) : Bool :=
  !u.is_anonymous

/-- Attribute user.username; the anonymous user carries the empty username,
as in the framework. -/
def UserRef.username : UserRef → String
  | .anonymous => ""
  | .user u => u.username

/-- The vendor SDK client facebook.GraphAPI(access_token); this code only
constructs it, so only the stored token is observable. -/
structure GraphAPI where
  access_token : String
deriving DecidableEq, Repr

/-- The accessor attached to the request: external user id plus a graph
client (class FacebookAccessor, middleware.py lines 12-18). -/
structure FacebookAccessor where
  uid : String
  graph : GraphAPI
deriving DecidableEq, Repr

/-- The per-request object: the attributes this middleware reads or writes.
user is none when the authentication middleware has not run (the attribute
is absent); facebook is none until an accessor is attached. -/
structure Request where
  user : Option UserRef
  session : List (String × String)
  POST : List (String × String)
  COOKIES : List (String × String)
  facebook : Option FacebookAccessor
deriving DecidableEq, Repr

/-- Framework constant django.contrib.auth.BACKEND_SESSION_KEY: the session
key under which the authenticating backend path is recorded. -/
def BACKEND_SESSION_KEY : String := "_auth_user_backend"

/-- The import path of the external-identity backend that the middleware
compares the recorded session backend against (middleware.py lines 76, 91). -/
def FacebookModelBackendPath : String := "django_facebook.auth.FacebookModelBackend"

/-- The configuration values this middleware reads from django settings. -/
structure Settings where
  FACEBOOK_APP_ID : String
  FACEBOOK_DEBUG_SIGNEDREQ : String
  FACEBOOK_DEBUG_COOKIE : String
  FACEBOOK_DEBUG_UID : String
  FACEBOOK_DEBUG_TOKEN : String

/-- The external collaborators the middleware calls, as request-indexed
functions. authenticate is the framework primitive django.contrib.auth
.authenticate(request=request). get_access_token and get_fb_cookie_data are
Modelled from the spec: they live in django_facebook.utils, which is not
under src; per the spec, get_access_token resolves a credential from the
request/session, and get_fb_cookie_data recovers the cookie-derived
external-identity assertion as a dictionary, carrying a user_id entry when
the cookie is present and lacking it when the cookie is absent. -/
structure Env where
  settings : Settings
  authenticate : Request → Option User
  get_access_token : Request → String
  get_fb_cookie_data : Request → List (String × String)

/-- Modelled from the spec: django_facebook.auth.login is not under src; per
the spec (section 4.1), on successful authentication it establishes a
framework session for the returned identity whose recorded backend equals
the external-identity backend, and the request user becomes that identity. -/
def login (request : Request) (user : User) : Request :=
  { request with
      user := some (UserRef.user user),
      session := dictSet request.session BACKEND_SESSION_KEY FacebookModelBackendPath }

/-- Framework primitive django.contrib.auth.logout: flushes the session and
replaces the request user with the anonymous user. -/
def logout (request : Request) : Request :=
  { request with user := some UserRef.anonymous, session := [] }

/-- The exception kinds a process_request of this file can raise. -/
inductive PyError where
  | improperlyConfigured : PyError
  | attributeError : PyError
deriving DecidableEq, Repr

/-- FacebookAccessor.__init__ (middleware.py lines 15-18): reads
request.user.username (an attribute error when the user attribute is
absent) and builds a graph client from get_access_token(request). -/
def FacebookAccessor.init (env : Env) (request : Request) :
    Except PyError FacebookAccessor :=
  match request.user with
  | none => Except.error PyError.attributeError
  | some u =>
      Except.ok { uid := u.username, graph := { access_token := env.get_access_token request } }

/-- FacebookLoginMiddleware.process_request (middleware.py lines 40-52):
ImproperlyConfigured when request.user is absent; when the user is
anonymous, authenticate and, on success, log the returned user in. -/
def FacebookLoginMiddleware.process_request (env : Env) (request : Request) :
    Except PyError Request :=
  match request.user with
  | none => Except.error PyError.improperlyConfigured
  | some u =>
      if u.is_anonymous then
        match env.authenticate request with
        | some usr => Except.ok (login request usr)
        | none => Except.ok request
      else
        Except.ok request

/-- FacebookLogOutMiddleware.process_request (middleware.py lines 65-79):
ImproperlyConfigured when request.user is absent; when the user is
authenticated and the session backend is the Facebook backend, log out
unless the cookie user_id equals the username (a missing cookie entry never
equals the username, as None == str is False in Python). -/
def FacebookLogOutMiddleware.process_request (env : Env) (request : Request) :
    Except PyError Request :=
  match request.user with
  | none => Except.error PyError.improperlyConfigured
  | some u =>
      if u.is_authenticated = true ∧
          dictGet request.session BACKEND_SESSION_KEY = some FacebookModelBackendPath then
        if ¬ dictGet (env.get_fb_cookie_data request) "user_id" = some u.username then
          Except.ok (logout request)
        else
          Except.ok request
      else
        Except.ok request

/-- FacebookHelperMiddleware.process_request (middleware.py lines 88-92):
reads request.user.is_authenticated() with no hasattr guard, so an absent
user attribute raises AttributeError; attaches a FacebookAccessor when the
user is authenticated and the session backend is the Facebook backend. -/
def FacebookHelperMiddleware.process_request (env : Env) (request : Request) :
    Except PyError Request :=
  match request.user with
  | none => Except.error PyError.attributeError
  | some u =>
      if u.is_authenticated = true then
        if dictGet request.session BACKEND_SESSION_KEY = some FacebookModelBackendPath then
          match FacebookAccessor.init env request with
          | Except.ok acc => Except.ok { request with facebook := some acc }
          | Except.error e => Except.error e
        else
          Except.ok request
      else
        Except.ok request

/-- FacebookMiddleware.process_request (middleware.py lines 103-106): runs
the login, logout and helper middlewares in sequence on the request; an
exception raised by one call propagates and the later calls do not run. -/
def FacebookMiddleware.process_request (env : Env) (request : Request) :
    Except PyError Request :=
  match FacebookLoginMiddleware.process_request env request with
  | Except.error e => Except.error e
  | Except.ok r1 =>
      match FacebookLogOutMiddleware.process_request env r1 with
      | Except.error e => Except.error e
      | Except.ok r2 => FacebookHelperMiddleware.process_request env r2

/-- FacebookDebugCanvasMiddleware.process_request (middleware.py lines
119-123): copies request.POST and writes the configured debug signed
request string under the signed_request key. -/
def FacebookDebugCanvasMiddleware.process_request (env : Env) (request : Request) :
    Request :=
  let cp := request.POST
  let request1 := { request with POST := cp }
  { request1 with
      POST := dictSet request1.POST "signed_request" env.settings.FACEBOOK_DEBUG_SIGNEDREQ }

/-- FacebookDebugCookieMiddleware.process_request (middleware.py lines
138-141): writes the configured debug cookie value under the cookie name
fbs_ followed by the configured application id. -/
def FacebookDebugCookieMiddleware.process_request (env : Env) (request : Request) :
    Request :=
  let cookie_name := "fbs_" ++ env.settings.FACEBOOK_APP_ID
  { request with
      COOKIES := dictSet request.COOKIES cookie_name env.settings.FACEBOOK_DEBUG_COOKIE }

/-- FacebookDebugTokenMiddleware.process_request (middleware.py lines
153-159): builds a local dictionary from the configured debug uid and debug
token that the rest of the body never reads, then attaches
FacebookAccessor(request), which draws its uid and token from the request
itself. -/
def FacebookDebugTokenMiddleware.process_request (env : Env) (request : Request) :
    Except PyError Request :=
  let _user := [("uid", env.settings.FACEBOOK_DEBUG_UID),
                ("access_token", env.settings.FACEBOOK_DEBUG_TOKEN)]
  match FacebookAccessor.init env request with
  | Except.ok acc => Except.ok { request with facebook := some acc }
  | Except.error e => Except.error e

/-- Spec-side composition, written from the spec wording for the composite
handler: invoke the login handler, then the logout handler, then the
annotating helper, in exactly that order, each once and unconditionally,
threading the request through the three calls. -/
def composedHandlers (env : Env) (request : Request) : Except PyError Request :=
  FacebookLoginMiddleware.process_request env request >>= fun r1 =>
    FacebookLogOutMiddleware.process_request env r1 >>= fun r2 =>
      FacebookHelperMiddleware.process_request env r2

/-- The request produced by the composite handler in the successful login
scenario: the logged-in request with the accessor for the authenticated
identity attached. -/
def loginScenarioResult (env : Env) (req : Request) (usr : User) : Request :=
  { login req usr with
      facebook :=
        some { uid := usr.username,
               graph := { access_token := env.get_access_token (login req usr) } } }

/-- Concrete settings used by the witness requests below. -/
def settings0 : Settings :=
  { FACEBOOK_APP_ID := "1234",
    FACEBOOK_DEBUG_SIGNEDREQ := "debugsignedreq",
    FACEBOOK_DEBUG_COOKIE := "debugcookievalue",
    FACEBOOK_DEBUG_UID := "debuguid",
    FACEBOOK_DEBUG_TOKEN := "debugtoken" }

/-- Concrete environment: authentication always fails and no Facebook
cookie is present. -/
def env0 : Env :=
  { settings := settings0,
    authenticate := fun _ => none,
    get_access_token := fun _ => "realtoken",
    get_fb_cookie_data := fun _ => [] }

/-- Concrete environment: authentication yields the user alice, but the
Facebook cookie is absent (empty cookie data). -/
def env1 : Env :=
  { settings := settings0,
    authenticate := fun _ => some { username := "alice" },
    get_access_token := fun _ => "tok1",
    get_fb_cookie_data := fun _ => [] }

/-- Concrete environment: authentication yields the user alice and the
cookie-derived assertion carries the matching user id alice. -/
def env2 : Env :=
  { settings := settings0,
    authenticate := fun _ => some { username := "alice" },
    get_access_token := fun _ => "tok2",
    get_fb_cookie_data := fun _ => [("user_id", "alice")] }

/-- Concrete environment: the cookie-derived assertion carries the user id
bob; authentication fails. -/
def env3 : Env :=
  { settings := settings0,
    authenticate := fun _ => none,
    get_access_token := fun _ => "tok3",
    get_fb_cookie_data := fun _ => [("user_id", "bob")] }

/-- A request the authentication middleware never touched: no user
attribute. -/
def reqNoUser : Request :=
  { user := none, session := [], POST := [], COOKIES := [], facebook := none }

/-- A request with an anonymous user and an empty session. -/
def reqAnon : Request :=
  { user := some UserRef.anonymous, session := [], POST := [], COOKIES := [],
    facebook := none }

/-- A request whose user bob is authenticated via the Facebook backend. -/
def reqBob : Request :=
  { user := some (UserRef.user { username := "bob" }),
    session := [(BACKEND_SESSION_KEY, FacebookModelBackendPath)],
    POST := [("other", "1")], COOKIES := [], facebook := none }

/-- Reading back the key just written returns the new value. -/
theorem dictGet_dictSet_same (d : List (String × String)) (k v : String) :
    dictGet (dictSet d k v) k = some v := by
  induction d with
  | nil => simp [dictGet, dictSet]
  | cons hd tl ih =>
      obtain ⟨k0, v0⟩ := hd
      by_cases h : k0 = k
      · simp [dictGet, dictSet, h]
      · simp [dictGet, dictSet, h, ih]

/-- Writing one key leaves every other key unchanged. -/
theorem dictGet_dictSet_other (d : List (String × String)) (k v k2 : String)
    (h : k2 ≠ k) :
    dictGet (dictSet d k v) k2 = dictGet d k2 := by
  induction d with
  | nil => simp [dictGet, dictSet, Ne.symm h]
  | cons hd tl ih =>
      obtain ⟨k0, v0⟩ := hd
      by_cases h0 : k0 = k
      · subst h0
        simp [dictGet, dictSet, Ne.symm h]
      · simp [dictGet, dictSet, h0, ih]

/-- The user recorded on a request after login. -/
theorem login_user (req : Request) (usr : User) :
    (login req usr).user = some (UserRef.user usr) := rfl

/-- The session recorded on a request after login. -/
theorem login_session (req : Request) (usr : User) :
    (login req usr).session =
      dictSet req.session BACKEND_SESSION_KEY FacebookModelBackendPath := rfl

/-- The user recorded on a request after logout is the anonymous user. -/
theorem logout_user (req : Request) : (logout req).user = some UserRef.anonymous := rfl

/-- Claim C1 (amended): for every request without a user attribute, the
login and logout middlewares raise ImproperlyConfigured, while the helper
middleware, which performs no hasattr check, raises an attribute error
instead. -/
theorem C1_missing_user_errors (env : Env) (req : Request) (h : req.user = none) :
    FacebookLoginMiddleware.process_request env req =
      Except.error PyError.improperlyConfigured ∧
    FacebookLogOutMiddleware.process_request env req =
      Except.error PyError.improperlyConfigured ∧
    FacebookHelperMiddleware.process_request env req =
      Except.error PyError.attributeError := by
  refine ⟨?_, ?_, ?_⟩ <;>
    simp [FacebookLoginMiddleware.process_request, FacebookLogOutMiddleware.process_request,
          FacebookHelperMiddleware.process_request, h]

/-- Claim C1 witness: the three middlewares evaluated on the concrete
request without a user attribute. -/
theorem C1_missing_user_errors_witness :
    FacebookLoginMiddleware.process_request env0 reqNoUser =
      Except.error PyError.improperlyConfigured ∧
    FacebookLogOutMiddleware.process_request env0 reqNoUser =
      Except.error PyError.improperlyConfigured ∧
    FacebookHelperMiddleware.process_request env0 reqNoUser =
      Except.error PyError.attributeError :=
  C1_missing_user_errors env0 reqNoUser rfl

/-- Claim C1 counterexample: on the concrete request without a user
attribute, the helper middleware raises the attribute error, which is not
the ImproperlyConfigured error the claim asserts for all three handlers. -/
theorem C1_counterexample :
    reqNoUser.user = none ∧
    FacebookHelperMiddleware.process_request env0 reqNoUser =
      Except.error PyError.attributeError ∧
    PyError.attributeError ≠ PyError.improperlyConfigured :=
  ⟨rfl, rfl, by decide⟩

/-- Claim C2: for an authenticated user whose session backend is the
Facebook backend, the logout middleware leaves the request intact exactly
when the cookie-derived user id equals the username; any differing cookie
user id, and in particular an absent one, clears the session. -/
theorem C2_logout_mismatch (env : Env) (req : Request) (ur : UserRef)
    (hu : req.user = some ur) (ha : ur.is_authenticated = true)
    (hb : dictGet req.session BACKEND_SESSION_KEY = some FacebookModelBackendPath) :
    (dictGet (env.get_fb_cookie_data req) "user_id" = some ur.username →
        FacebookLogOutMiddleware.process_request env req = Except.ok req) ∧
    (¬ dictGet (env.get_fb_cookie_data req) "user_id" = some ur.username →
        FacebookLogOutMiddleware.process_request env req = Except.ok (logout req) ∧
        (logout req).session = []) ∧
    (dictGet (env.get_fb_cookie_data req) "user_id" = none →
        FacebookLogOutMiddleware.process_request env req = Except.ok (logout req)) := by
  refine ⟨?_, ?_, ?_⟩
  · intro hc
    simp [FacebookLogOutMiddleware.process_request, hu, ha, hb, hc]
  · intro hc
    refine ⟨?_, rfl⟩
    simp [FacebookLogOutMiddleware.process_request, hu, ha, hb, hc]
  · intro hc
    simp [FacebookLogOutMiddleware.process_request, hu, ha, hb, hc]

/-- Claim C2 witness: with the cookie user id bob matching the session
user bob, the logout middleware leaves the concrete request intact. -/
theorem C2_logout_mismatch_witness :
    FacebookLogOutMiddleware.process_request env3 reqBob = Except.ok reqBob :=
  (C2_logout_mismatch env3 reqBob (UserRef.user { username := "bob" })
      rfl rfl (by decide)).1 (by decide)

/-- Claim C3 (code bug): on a request whose user is bob with resolved
access token realtoken, the debug token middleware attaches an accessor
carrying bob and realtoken; the configured debug uid and debug token,
which its docstring promises to force, differ from both and are never
used. -/
theorem C3_debug_token_bug :
    FacebookDebugTokenMiddleware.process_request env0 reqBob =
      Except.ok { reqBob with
        facebook := some { uid := "bob", graph := { access_token := "realtoken" } } } ∧
    settings0.FACEBOOK_DEBUG_UID ≠ "bob" ∧
    settings0.FACEBOOK_DEBUG_TOKEN ≠ "realtoken" :=
  ⟨rfl, by decide, by decide⟩

/-- Claim C4: for every request with a user attribute, the helper
middleware attaches the accessor exactly when the user is authenticated
and the session backend is the Facebook backend, and otherwise returns the
request unchanged. -/
theorem C4_helper_iff (env : Env) (req : Request) (ur : UserRef)
    (hu : req.user = some ur) :
    (ur.is_authenticated = true →
      dictGet req.session BACKEND_SESSION_KEY = some FacebookModelBackendPath →
        FacebookHelperMiddleware.process_request env req =
          Except.ok { req with
            facebook := some { uid := ur.username,
                               graph := { access_token := env.get_access_token req } } }) ∧
    (¬ (ur.is_authenticated = true ∧
        dictGet req.session BACKEND_SESSION_KEY = some FacebookModelBackendPath) →
        FacebookHelperMiddleware.process_request env req = Except.ok req) := by
  constructor
  · intro ha hb
    simp [FacebookHelperMiddleware.process_request, FacebookAccessor.init, hu, ha, hb]
  · intro hn
    rw [not_and_or] at hn
    rcases hn with h1 | h2
    · have ha : ur.is_authenticated = false := by
        revert h1
        cases ur.is_authenticated <;> simp
      simp [FacebookHelperMiddleware.process_request, hu, ha]
    · by_cases ha : ur.is_authenticated = true
      · simp [FacebookHelperMiddleware.process_request, hu, ha, h2]
      · simp [FacebookHelperMiddleware.process_request, hu, ha]

/-- Claim C4 witness: on the concrete authenticated Facebook-backed
request, the helper middleware attaches the accessor for bob. -/
theorem C4_helper_iff_witness :
    FacebookHelperMiddleware.process_request env0 reqBob =
      Except.ok { reqBob with
        facebook := some { uid := "bob", graph := { access_token := "realtoken" } } } :=
  (C4_helper_iff env0 reqBob (UserRef.user { username := "bob" }) rfl).1 rfl (by decide)

/-- Claim C5: for a request with an anonymous user, when authentication
yields a user, the login middleware logs that user in, and the resulting
session records the Facebook backend and the returned identity; when the
user is already authenticated, the login middleware returns the request
unchanged. -/
theorem C5_login (env : Env) (req : Request) (ur : UserRef) (usr : User)
    (hu : req.user = some ur) :
    (ur.is_anonymous = true → env.authenticate req = some usr →
        FacebookLoginMiddleware.process_request env req = Except.ok (login req usr) ∧
        dictGet (login req usr).session BACKEND_SESSION_KEY =
          some FacebookModelBackendPath ∧
        (login req usr).user = some (UserRef.user usr)) ∧
    (ur.is_authenticated = true →
        FacebookLoginMiddleware.process_request env req = Except.ok req) := by
  constructor
  · intro ha hauth
    refine ⟨?_, ?_, rfl⟩
    · simp [FacebookLoginMiddleware.process_request, hu, ha, hauth]
    · simp [login_session, dictGet_dictSet_same]
  · intro ha
    have hanon : ur.is_anonymous = false := by
      revert ha
      simp [UserRef.is_authenticated]
    simp [FacebookLoginMiddleware.process_request, hu, hanon]

/-- Claim C5 witness: on the concrete anonymous request, with the
environment authenticating alice, the login middleware logs alice in and
the session records the Facebook backend. -/
theorem C5_login_witness :
    FacebookLoginMiddleware.process_request env2 reqAnon =
      Except.ok (login reqAnon { username := "alice" }) ∧
    dictGet (login reqAnon { username := "alice" }).session BACKEND_SESSION_KEY =
      some FacebookModelBackendPath ∧
    (login reqAnon { username := "alice" }).user =
      some (UserRef.user { username := "alice" }) :=
  (C5_login env2 reqAnon UserRef.anonymous { username := "alice" } rfl).1 rfl rfl

/-- Claim C6 counterexample: with an environment that authenticates alice
but carries no cookie assertion, the composite handler on the anonymous
request logs alice in and immediately logs her out again: the final
request equals the original one, its session records no backend and no
accessor is attached, refuting the claim as stated. -/
theorem C6_counterexample :
    reqAnon.user = some UserRef.anonymous ∧
    env1.authenticate reqAnon = some { username := "alice" } ∧
    FacebookMiddleware.process_request env1 reqAnon = Except.ok reqAnon ∧
    dictGet reqAnon.session BACKEND_SESSION_KEY = none ∧
    reqAnon.facebook = none :=
  ⟨rfl, rfl, rfl, rfl, rfl⟩

/-- Claim C6 (amended): for a request with an anonymous user, when
authentication yields a user and the cookie-derived user id on the
logged-in request matches that identity, the composite handler produces
the logged-in request with the accessor attached; its session records the
Facebook backend. -/
theorem C6_amended (env : Env) (req : Request) (usr : User)
    (h1 : req.user = some UserRef.anonymous)
    (h2 : env.authenticate req = some usr)
    (h3 : dictGet (env.get_fb_cookie_data (login req usr)) "user_id" =
            some usr.username) :
    FacebookMiddleware.process_request env req =
      Except.ok (loginScenarioResult env req usr) ∧
    dictGet (loginScenarioResult env req usr).session BACKEND_SESSION_KEY =
      some FacebookModelBackendPath ∧
    (loginScenarioResult env req usr).facebook =
      some { uid := usr.username,
             graph := { access_token := env.get_access_token (login req usr) } } := by
  have hlogin : FacebookLoginMiddleware.process_request env req =
      Except.ok (login req usr) := by
    simp [FacebookLoginMiddleware.process_request, UserRef.is_anonymous, h1, h2]
  have hlogout : FacebookLogOutMiddleware.process_request env (login req usr) =
      Except.ok (login req usr) := by
    simp [FacebookLogOutMiddleware.process_request, login_user, login_session,
          UserRef.is_authenticated, UserRef.is_anonymous, UserRef.username,
          dictGet_dictSet_same, h3]
  have hhelper : FacebookHelperMiddleware.process_request env (login req usr) =
      Except.ok (loginScenarioResult env req usr) := by
    simp [FacebookHelperMiddleware.process_request, FacebookAccessor.init,
          login_user, login_session, UserRef.is_authenticated, UserRef.is_anonymous,
          UserRef.username, dictGet_dictSet_same, loginScenarioResult]
  refine ⟨?_, ?_, rfl⟩
  · simp [FacebookMiddleware.process_request, hlogin, hlogout, hhelper]
  · simp [loginScenarioResult, login_session, dictGet_dictSet_same]

/-- Claim C6 witness: on the concrete anonymous request, with an
environment authenticating alice and a matching cookie assertion, the
composite handler attaches the accessor for alice and the session records
the Facebook backend. -/
theorem C6_amended_witness :
    FacebookMiddleware.process_request env2 reqAnon =
      Except.ok (loginScenarioResult env2 reqAnon { username := "alice" }) ∧
    dictGet (loginScenarioResult env2 reqAnon { username := "alice" }).session
        BACKEND_SESSION_KEY = some FacebookModelBackendPath ∧
    (loginScenarioResult env2 reqAnon { username := "alice" }).facebook =
      some { uid := "alice", graph := { access_token := "tok2" } } :=
  C6_amended env2 reqAnon { username := "alice" } rfl rfl (by decide)

/-- Claim C7: for a request whose user is authenticated via the Facebook
backend, whose cookie assertion is absent and which carries no accessor,
the composite handler clears the session and attaches no accessor. -/
theorem C7_logout_scenario (env : Env) (req : Request) (ur : UserRef)
    (hu : req.user = some ur) (ha : ur.is_authenticated = true)
    (hb : dictGet req.session BACKEND_SESSION_KEY = some FacebookModelBackendPath)
    (hc : dictGet (env.get_fb_cookie_data req) "user_id" = none)
    (hf : req.facebook = none) :
    FacebookMiddleware.process_request env req = Except.ok (logout req) ∧
    (logout req).session = [] ∧
    (logout req).facebook = none := by
  have hanon : ur.is_anonymous = false := by
    revert ha
    simp [UserRef.is_authenticated]
  have hlogin : FacebookLoginMiddleware.process_request env req = Except.ok req := by
    simp [FacebookLoginMiddleware.process_request, hu, hanon]
  have hlogout : FacebookLogOutMiddleware.process_request env req =
      Except.ok (logout req) := by
    simp [FacebookLogOutMiddleware.process_request, hu, ha, hb, hc]
  have hhelper : FacebookHelperMiddleware.process_request env (logout req) =
      Except.ok (logout req) := by
    simp [FacebookHelperMiddleware.process_request, logout_user,
          UserRef.is_authenticated, UserRef.is_anonymous]
  refine ⟨?_, rfl, ?_⟩
  · simp [FacebookMiddleware.process_request, hlogin, hlogout, hhelper]
  · simp [logout, hf]

/-- Claim C7 witness: on the concrete Facebook-backed request for bob with
no cookie assertion, the composite handler clears the session and attaches
no accessor. -/
theorem C7_logout_scenario_witness :
    FacebookMiddleware.process_request env0 reqBob = Except.ok (logout reqBob) ∧
    (logout reqBob).session = [] ∧
    (logout reqBob).facebook = none :=
  C7_logout_scenario env0 reqBob (UserRef.user { username := "bob" })
    rfl rfl (by decide) rfl rfl

/-- Claim C8: the composite middleware equals the spec-side composition
that invokes the login, logout and helper middlewares in that order, each
once, threading the request and propagating exceptions. -/
theorem C8_composite_eq (env : Env) (req : Request) :
    FacebookMiddleware.process_request env req = composedHandlers env req := by
  cases hl : FacebookLoginMiddleware.process_request env req with
  | error e =>
      simp [FacebookMiddleware.process_request, composedHandlers, hl,
            Bind.bind, Except.bind]
  | ok r1 =>
      cases ho : FacebookLogOutMiddleware.process_request env r1 with
      | error e =>
          simp [FacebookMiddleware.process_request, composedHandlers, hl, ho,
                Bind.bind, Except.bind]
      | ok r2 =>
          simp [FacebookMiddleware.process_request, composedHandlers, hl, ho,
                Bind.bind, Except.bind]

/-- Claim C9: the debug cookie middleware sets the cookie named fbs_
followed by the configured application id to the configured debug cookie
value, overwriting any prior value. -/
theorem C9_debug_cookie (env : Env) (req : Request) :
    dictGet (FacebookDebugCookieMiddleware.process_request env req).COOKIES
        ("fbs_" ++ env.settings.FACEBOOK_APP_ID) =
      some env.settings.FACEBOOK_DEBUG_COOKIE := by
  simp [FacebookDebugCookieMiddleware.process_request, dictGet_dictSet_same]

/-- Claim C10: after the debug canvas middleware runs, every POST field
other than signed_request has its prior value, and signed_request carries
the configured debug signed request string. -/
theorem C10_debug_canvas_frame (env : Env) (req : Request) (k : String)
    (h : k ≠ "signed_request") :
    dictGet (FacebookDebugCanvasMiddleware.process_request env req).POST k =
      dictGet req.POST k ∧
    dictGet (FacebookDebugCanvasMiddleware.process_request env req).POST
        "signed_request" = some env.settings.FACEBOOK_DEBUG_SIGNEDREQ := by
  constructor
  · simp only [FacebookDebugCanvasMiddleware.process_request]
    exact dictGet_dictSet_other req.POST "signed_request"
      env.settings.FACEBOOK_DEBUG_SIGNEDREQ k h
  · simp only [FacebookDebugCanvasMiddleware.process_request]
    exact dictGet_dictSet_same req.POST "signed_request"
      env.settings.FACEBOOK_DEBUG_SIGNEDREQ

/-- Claim C10 witness: on the concrete request whose POST carries the field
named other, that field keeps its value and signed_request carries the
configured debug string. -/
theorem C10_debug_canvas_frame_witness :
    dictGet (FacebookDebugCanvasMiddleware.process_request env0 reqBob).POST "other" =
      dictGet reqBob.POST "other" ∧
    dictGet (FacebookDebugCanvasMiddleware.process_request env0 reqBob).POST
        "signed_request" = some env0.settings.FACEBOOK_DEBUG_SIGNEDREQ :=
  C10_debug_canvas_frame env0 reqBob "other" (by decide)

end DjangoFacebook
